import Mathlib

/-!
Shallow embedding of the Autobot Stop Hook continuation policy
(`templates/claude/hooks/stop-loop.js`).

The hook reads four small persisted documents (task.json, plan.json,
metrics.json, progress.md) plus a pause-flag marker file, and decides
whether the iterative work loop halts or continues.  We embed the
post-parse state of those documents (a failed/absent JSON load is
`Option.none`, matching the `loadJson` helper that returns `null` on any
failure), and model the hook's observable behaviour as a pure function
from that state to a decision payload plus the set of file writes it
performs.
-/

namespace Autobot

/-- A JavaScript primitive value, as far as the hook's truthiness tests
on `task.id` care. -/
inductive JsPrim where
  | str : String → JsPrim
  | num : Int → JsPrim
  | boolean : Bool → JsPrim
  | null : JsPrim
deriving DecidableEq, Repr

/-- JavaScript truthiness of a primitive: `""`, `0`, `false`, `null` are
falsy, everything else truthy. -/
def JsPrim.truthy : JsPrim → Bool
  | .str s => !(s = "")
  | .num n => !(n = 0)
  | .boolean b => b
  | .null => false

/-- Truthiness of a possibly-absent field (`undefined` is falsy). -/
def jsTruthyOpt : Option JsPrim → Bool
  | none => false
  | some v => v.truthy

/-- JS `x || d` for an optional non-negative integer field: absent
(`undefined`/`null`) and `0` are falsy, so both fall back to `d`.
Mirrors `metrics.current_iteration || 0`, `metrics.max_iterations || 50`,
`metrics.consecutive_test_failures || 0` in the source. -/
def jsOrNat (o : Option Nat) (d : Nat) : Nat :=
  match o with
  | none => d
  | some n => if n = 0 then d else n

/-- JS `x || d` for an optional string field: absent and `""` are falsy.
Mirrors `nextTask.description || 'No description'`. -/
def jsOrStr (o : Option String) (d : String) : String :=
  match o with
  | none => d
  | some s => if s = "" then d else s

/-- Auxiliary substring search over character lists: does `needle` occur
as a contiguous run anywhere in the haystack? -/
def strIncludesAux (needle : List Char) : List Char → Bool
  | [] => List.isPrefixOf needle []
  | c :: rest => List.isPrefixOf needle (c :: rest) || strIncludesAux needle rest

/-- JS `hay.includes(needle)`. -/
def jsIncludes (hay needle : String) : Bool :=
  strIncludesAux needle.data hay.data

/-- One entry of `plan.json`'s `subtasks` array.  Every field may be
absent in the JSON. -/
structure Subtask where
  id : Option JsPrim
  title : Option String
  description : Option String
  status : Option String
  acceptance_criteria : Option (List String)
deriving DecidableEq, Repr

/-- `plan.json`: a mapping whose `subtasks` field (if present) is an
ordered array of subtasks. -/
structure Plan where
  subtasks : Option (List Subtask)
deriving DecidableEq, Repr

/-- `task.json`. -/
structure Task where
  id : Option JsPrim
  status : Option String
  title : Option String
deriving DecidableEq, Repr

/-- `metrics.json`. -/
structure Metrics where
  current_iteration : Option Nat
  max_iterations : Option Nat
  consecutive_test_failures : Option Nat
  last_activity : Option String
deriving DecidableEq, Repr

/-- The default metrics object substituted when `metrics.json` is absent
or unparsable (`loadJson(...) || {current_iteration: 0, max_iterations:
50, consecutive_test_failures: 0}`). -/
def defaultMetrics : Metrics :=
  { current_iteration := some 0
    max_iterations := some 50
    consecutive_test_failures := some 0
    last_activity := none }

/-- The post-parse state the hook observes on one invocation.  `none`
for a JSON document means the file was absent or failed to parse.
`progress` is the content of `progress.md` when that file exists.
`now` is the ISO timestamp `new Date().toISOString()` would produce. -/
structure HookInput where
  autobotDirExists : Bool
  task : Option Task
  plan : Option Plan
  metrics : Option Metrics
  pausedFlag : Bool
  progress : Option String
  now : String
deriving DecidableEq, Repr

/-- The decision payload printed on stdout: nothing at all, a clean-halt
`{continue:false, stopReason}` object, or a `{decision:"block", reason}`
object. -/
inductive Output where
  | noOutput : Output
  | stop : String → Output
  | block : String → Output
deriving DecidableEq, Repr

/-- Observable effect of one invocation: the stdout payload plus which
documents were written (and with what contents). -/
structure Result where
  output : Output
  taskWrite : Option Task
  metricsWrite : Option Metrics
deriving DecidableEq, Repr

/-- The literal exit marker searched for in `progress.md`. -/
def exitMarker : String := "EXIT_SIGNAL: COMPLETE"

def pausedReason : String := "Task paused. Use /resume to continue."

def safetyReason (maxIter : Nat) : String :=
  "Safety limit reached: " ++ toString maxIter ++
    " iterations. Review progress and use /resume to continue."

def failureReason (n : Nat) : String :=
  "PAUSE: " ++ toString n ++
    " consecutive test failures detected.\n\nPlease review:\n1. .autobot/observations.jsonl for failure patterns\n2. .autobot/progress.md for any related learnings\n3. The test output to understand the root cause\n\nOptions:\n- Fix the issue and tests will auto-run\n- Use /abort to stop and preserve state\n- Use /pause to pause and resume later\n\nWhat would you like to do?"

def completedReason (n : Nat) : String :=
  "Task completed successfully! " ++ toString n ++ " subtasks finished."

def noSignalReason : String :=
  "All subtasks appear complete but EXIT_SIGNAL not found.\n\nPlease:\n1. Verify all acceptance criteria are met\n2. Run the full test suite one more time\n3. If everything passes, append \"EXIT_SIGNAL: COMPLETE\" to .autobot/progress.md\n\nThis ensures proper task completion tracking."

/-- Template-literal interpolation of a possibly-undefined title:
JS renders `undefined` as the string "undefined". -/
def renderTitle (t : Option String) : String := t.getD "undefined"

/-- `(nextTask.acceptance_criteria || ['Complete the subtask']).map(c =>
`- ${c}`).join('\n')`.  Note JS `||` substitutes the default only when
the field is absent/null: an *empty array is truthy* and is kept,
rendering as the empty string. -/
def renderCriteria (o : Option (List String)) : String :=
  String.intercalate "\n"
    ((match o with
      | none => ["Complete the subtask"]
      | some l => l).map (fun c => "- " ++ c))

/-- The continuation prompt emitted when work remains (outcome 5). -/
def workPrompt (nextTask : Subtask) (completedCount totalCount newIter maxIter : Nat) :
    String :=
  "Continue working on the current task.\n\nPROGRESS: " ++ toString completedCount ++
    "/" ++ toString totalCount ++ " subtasks completed\nITERATION: " ++
    toString newIter ++ "/" ++ toString maxIter ++ "\n\nCURRENT SUBTASK: " ++
    renderTitle nextTask.title ++ "\nDESCRIPTION: " ++
    jsOrStr nextTask.description "No description" ++ "\nACCEPTANCE CRITERIA:\n" ++
    renderCriteria nextTask.acceptance_criteria ++
    "\n\nINSTRUCTIONS:\n1. Review .autobot/progress.md for any learned patterns\n2. Write tests FIRST if this involves new functionality\n3. Implement the change\n4. Tests will auto-run after edits\n5. If tests pass, update .autobot/plan.json to mark subtask complete\n6. If all subtasks done, write \"EXIT_SIGNAL: COMPLETE\" to .autobot/progress.md\n\nQuality over speed. Small, verifiable steps."

/-- The metrics object after default substitution on load. -/
def loadedMetrics (inp : HookInput) : Metrics := inp.metrics.getD defaultMetrics

/-- `const currentIteration = metrics.current_iteration || 0`. -/
def effCurrentIteration (m : Metrics) : Nat := jsOrNat m.current_iteration 0

/-- `const maxIterations = metrics.max_iterations || 50`. -/
def effMaxIterations (m : Metrics) : Nat := jsOrNat m.max_iterations 50

/-- `const consecutiveFailures = metrics.consecutive_test_failures || 0`. -/
def effFailures (m : Metrics) : Nat := jsOrNat m.consecutive_test_failures 0

/-- `const subtasks = (plan && plan.subtasks) ? plan.subtasks : []`. -/
def planSubtasks (inp : HookInput) : List Subtask :=
  match inp.plan with
  | none => []
  | some p => p.subtasks.getD []

/-- `subtasks.filter(t => t.status !== 'completed')`. -/
def incompleteOf (inp : HookInput) : List Subtask :=
  (planSubtasks inp).filter (fun s => !(s.status = some "completed" : Bool))

/-- `subtasks.filter(t => t.status === 'completed')`. -/
def completedOf (inp : HookInput) : List Subtask :=
  (planSubtasks inp).filter (fun s => (s.status = some "completed" : Bool))

/-- Content of `progress.md`, the empty string when the file is absent. -/
def progressOf (inp : HookInput) : String := inp.progress.getD ""

/-- The hook's `main`, as a pure function from the observed document
state to the stdout payload and file writes.  Translated branch by
branch from `stop-loop.js`. -/
def main (inp : HookInput) : Result :=
  if inp.autobotDirExists = false then ⟨Output.noOutput, none, none⟩ else
  match inp.task with
  | none => ⟨Output.noOutput, none, none⟩
  | some task =>
    if task.status = some "idle" ∨ jsTruthyOpt task.id = false then
      ⟨Output.noOutput, none, none⟩
    else if inp.pausedFlag = true then
      ⟨Output.stop pausedReason, none, none⟩
    else if effMaxIterations (loadedMetrics inp) ≤ effCurrentIteration (loadedMetrics inp) then
      ⟨Output.stop (safetyReason (effMaxIterations (loadedMetrics inp))), none, none⟩
    else if 3 ≤ effFailures (loadedMetrics inp) then
      ⟨Output.block (failureReason (effFailures (loadedMetrics inp))), none, none⟩
    else if jsIncludes (progressOf inp) exitMarker = true ∧ incompleteOf inp = [] then
      ⟨Output.stop (completedReason (completedOf inp).length),
        some { task with status := some "completed" }, none⟩
    else
      match incompleteOf inp with
      | nextTask :: _ =>
        ⟨Output.block
            (workPrompt nextTask (completedOf inp).length (planSubtasks inp).length
              (effCurrentIteration (loadedMetrics inp) + 1)
              (effMaxIterations (loadedMetrics inp))),
          none,
          some { loadedMetrics inp with
                  current_iteration := some (effCurrentIteration (loadedMetrics inp) + 1)
                  last_activity := some inp.now }⟩
      | [] => ⟨Output.block noSignalReason, none, none⟩

/-- The spec's outcome number (1–7) for an invocation, read off the same
branch structure as `main`: 1 no active task, 2 paused, 3 iteration
budget exhausted, 4 failure threshold, 5 work remaining, 6 all complete
but no exit marker, 7 all complete with exit marker. -/
def mainOutcome (inp : HookInput) : Nat :=
  if inp.autobotDirExists = false then 1 else
  match inp.task with
  | none => 1
  | some task =>
    if task.status = some "idle" ∨ jsTruthyOpt task.id = false then 1
    else if inp.pausedFlag = true then 2
    else if effMaxIterations (loadedMetrics inp) ≤ effCurrentIteration (loadedMetrics inp) then 3
    else if 3 ≤ effFailures (loadedMetrics inp) then 4
    else if jsIncludes (progressOf inp) exitMarker = true ∧ incompleteOf inp = [] then 7
    else
      match incompleteOf inp with
      | _ :: _ => 5
      | [] => 6

/-- Result of attempting to read one state file. -/
inductive ReadRes (α : Type) where
  | absent : ReadRes α
  | malformed : ReadRes α
  | ok : α → ReadRes α
deriving DecidableEq, Repr

/-- `loadJson`: any read or parse failure is swallowed and mapped to
`null`. -/
def loadJson {α : Type} : ReadRes α → Option α
  | .absent => none
  | .malformed => none
  | .ok a => some a

/-- Pre-parse view of an invocation: the raw read outcomes of the three
JSON documents. -/
structure RawInput where
  autobotDirExists : Bool
  task : ReadRes Task
  plan : ReadRes Plan
  metrics : ReadRes Metrics
  pausedFlag : Bool
  progress : Option String
  now : String
deriving DecidableEq, Repr

/-- Loading phase of `main`: the three `loadJson` calls. -/
def toHookInput (r : RawInput) : HookInput :=
  { autobotDirExists := r.autobotDirExists
    task := loadJson r.task
    plan := loadJson r.plan
    metrics := loadJson r.metrics
    pausedFlag := r.pausedFlag
    progress := r.progress
    now := r.now }

/-- The hook end to end: read the documents, then evaluate. -/
def mainRaw (r : RawInput) : Result := main (toHookInput r)

/-- An active in-progress task used by concrete witnesses. -/
def taskW : Task :=
  { id := some (JsPrim.str "task-1"), status := some "in_progress", title := some "Demo task" }

/-- A pending subtask with full fields. -/
def subA : Subtask :=
  { id := some (JsPrim.str "s2"), title := some "Write parser",
    description := some "Parse the input format", status := some "pending",
    acceptance_criteria := some ["Unit tests pass", "Handles empty input"] }

/-- A completed subtask. -/
def subB : Subtask :=
  { id := some (JsPrim.str "s1"), title := some "Set up project", description := none,
    status := some "completed", acceptance_criteria := none }

def subEmptyCrit : Subtask :=
  { id := some (JsPrim.str "s3"), title := some "Only step", description := some "Do it",
    status := some "pending", acceptance_criteria := some [] }

def subNoCrit : Subtask :=
  { id := some (JsPrim.str "s4"), title := some "Only step", description := none,
    status := some "in_progress", acceptance_criteria := none }

def taskFalsyId : Task :=
  { id := some (JsPrim.str ""), status := some "in_progress", title := some "Demo task" }

/-- Metrics mid-run. -/
def metricsW : Metrics :=
  { current_iteration := some 2, max_iterations := some 50,
    consecutive_test_failures := some 1, last_activity := some "2026-02-03T00:00:00Z" }

def metricsF : Metrics :=
  { current_iteration := some 2, max_iterations := some 50,
    consecutive_test_failures := some 3, last_activity := some "2026-02-03T00:00:00Z" }

def metricsOver : Metrics :=
  { current_iteration := some 60, max_iterations := some 50,
    consecutive_test_failures := some 5, last_activity := some "2026-02-03T00:00:00Z" }

/-- Concrete input exercising the work-remaining outcome. -/
def inpC1 : HookInput :=
  { autobotDirExists := true, task := some taskW,
    plan := some ⟨some [subB, subA]⟩, metrics := some metricsW, pausedFlag := false,
    progress := some "working notes", now := "2026-02-03T04:05:06Z" }

def inpC2 : HookInput :=
  { autobotDirExists := true, task := some taskW,
    plan := some ⟨some [subB]⟩, metrics := some metricsW, pausedFlag := false,
    progress := some "summary\nEXIT_SIGNAL: COMPLETE\n", now := "2026-02-03T04:05:06Z" }

def inpC3 : HookInput :=
  { autobotDirExists := true, task := some taskW,
    plan := some ⟨some [subB, subA]⟩, metrics := some metricsF, pausedFlag := false,
    progress := some "working notes", now := "2026-02-03T04:05:06Z" }

def inpC4 : HookInput :=
  { autobotDirExists := true, task := some taskW,
    plan := some ⟨some [subB, subA]⟩, metrics := some metricsOver, pausedFlag := false,
    progress := some "working notes", now := "2026-02-03T04:05:06Z" }

def inpC6 : HookInput :=
  { autobotDirExists := true, task := some taskW,
    plan := some ⟨some [subB, subA]⟩, metrics := some metricsW, pausedFlag := true,
    progress := some "working notes", now := "2026-02-03T04:05:06Z" }

def inpC8 : HookInput :=
  { autobotDirExists := true, task := some taskW, plan := some ⟨some [subEmptyCrit]⟩,
    metrics := some metricsW, pausedFlag := false, progress := some "",
    now := "2026-02-03T04:05:06Z" }

def inpC8w : HookInput :=
  { autobotDirExists := true, task := some taskW, plan := some ⟨some [subNoCrit]⟩,
    metrics := some metricsW, pausedFlag := false, progress := some "",
    now := "2026-02-03T04:05:06Z" }

def inpC9 : HookInput :=
  { autobotDirExists := true, task := some taskW, plan := none,
    metrics := some metricsW, pausedFlag := false,
    progress := some "summary\nEXIT_SIGNAL: COMPLETE\n", now := "2026-02-03T04:05:06Z" }

def inpC10 : HookInput :=
  { autobotDirExists := true, task := some taskFalsyId, plan := some ⟨some [subA]⟩,
    metrics := some metricsW, pausedFlag := false, progress := some "",
    now := "2026-02-03T04:05:06Z" }

theorem isPrefixOf_append (l post : List Char) : List.isPrefixOf l (l ++ post) = true := by
  induction l with
  | nil => simp [List.isPrefixOf]
  | cons c cs ih => simp [List.isPrefixOf, ih]

theorem strIncludesAux_append (needle pre post : List Char) :
    strIncludesAux needle (pre ++ (needle ++ post)) = true := by
  induction pre with
  | nil =>
    cases h : needle ++ post with
    | nil =>
      have hn : needle = [] := by
        cases needle with
        | nil => rfl
        | cons a as => simp at h
      simp [strIncludesAux, hn]
    | cons c rest =>
      simp only [List.nil_append, h, strIncludesAux]
      rw [← h, isPrefixOf_append]
      simp
  | cons c cs ih =>
    simp only [List.cons_append, strIncludesAux, List.append_eq]
    rw [ih]
    simp

theorem jsIncludes_of_eq (hay pre mid post : String)
    (h : hay = pre ++ (mid ++ post)) : jsIncludes hay mid = true := by
  subst h
  simp only [jsIncludes, String.data_append]
  exact strIncludesAux_append _ _ _

theorem find?_of_filter_cons {α : Type} (p : α → Bool) (l : List α) (a : α) (rest : List α)
    (h : l.filter p = a :: rest) : l.find? p = some a := by
  induction l with
  | nil => simp at h
  | cons x xs ih =>
    by_cases hp : p x
    · simp [List.filter, hp] at h
      obtain ⟨h1, h2⟩ := h
      subst h1
      simp [List.find?, hp]
    · simp [List.filter, hp] at h
      simp [List.find?, hp]
      exact ih h

theorem loadedMetrics_setNow (inp : HookInput) (s : String) :
    loadedMetrics { inp with now := s } = loadedMetrics inp := rfl

theorem planSubtasks_setNow (inp : HookInput) (s : String) :
    planSubtasks { inp with now := s } = planSubtasks inp := rfl

theorem incompleteOf_setNow (inp : HookInput) (s : String) :
    incompleteOf { inp with now := s } = incompleteOf inp := rfl

theorem completedOf_setNow (inp : HookInput) (s : String) :
    completedOf { inp with now := s } = completedOf inp := rfl

theorem progressOf_setNow (inp : HookInput) (s : String) :
    progressOf { inp with now := s } = progressOf inp := rfl

/-- Exhaustive case analysis of one invocation: every input falls into
exactly one of the seven spec outcomes, with the corresponding payload
and writes; re-running at a different wall-clock time `s` gives the same
result except that outcome 5 stamps `last_activity` with the new time. -/
theorem main_cases (inp : HookInput) (s : String) :
    (mainOutcome inp = 1 ∧ main inp = ⟨Output.noOutput, none, none⟩ ∧
      main { inp with now := s } = ⟨Output.noOutput, none, none⟩) ∨
    (mainOutcome inp = 2 ∧ main inp = ⟨Output.stop pausedReason, none, none⟩ ∧
      main { inp with now := s } = ⟨Output.stop pausedReason, none, none⟩) ∨
    (mainOutcome inp = 3 ∧
      effMaxIterations (loadedMetrics inp) ≤ effCurrentIteration (loadedMetrics inp) ∧
      main inp = ⟨Output.stop (safetyReason (effMaxIterations (loadedMetrics inp))), none, none⟩ ∧
      main { inp with now := s } =
        ⟨Output.stop (safetyReason (effMaxIterations (loadedMetrics inp))), none, none⟩) ∨
    (mainOutcome inp = 4 ∧
      3 ≤ effFailures (loadedMetrics inp) ∧
      main inp = ⟨Output.block (failureReason (effFailures (loadedMetrics inp))), none, none⟩ ∧
      main { inp with now := s } =
        ⟨Output.block (failureReason (effFailures (loadedMetrics inp))), none, none⟩) ∨
    (mainOutcome inp = 7 ∧ jsIncludes (progressOf inp) exitMarker = true ∧
      incompleteOf inp = [] ∧ ∃ t, inp.task = some t ∧
      main inp = ⟨Output.stop (completedReason (completedOf inp).length),
        some { t with status := some "completed" }, none⟩ ∧
      main { inp with now := s } = ⟨Output.stop (completedReason (completedOf inp).length),
        some { t with status := some "completed" }, none⟩) ∨
    (mainOutcome inp = 5 ∧ ∃ nt rest, incompleteOf inp = nt :: rest ∧
      main inp = ⟨Output.block
          (workPrompt nt (completedOf inp).length (planSubtasks inp).length
            (effCurrentIteration (loadedMetrics inp) + 1)
            (effMaxIterations (loadedMetrics inp))),
        none,
        some { loadedMetrics inp with
                current_iteration := some (effCurrentIteration (loadedMetrics inp) + 1)
                last_activity := some inp.now }⟩ ∧
      main { inp with now := s } = ⟨Output.block
          (workPrompt nt (completedOf inp).length (planSubtasks inp).length
            (effCurrentIteration (loadedMetrics inp) + 1)
            (effMaxIterations (loadedMetrics inp))),
        none,
        some { loadedMetrics inp with
                current_iteration := some (effCurrentIteration (loadedMetrics inp) + 1)
                last_activity := some s }⟩) ∨
    (mainOutcome inp = 6 ∧ incompleteOf inp = [] ∧
      jsIncludes (progressOf inp) exitMarker = false ∧
      main inp = ⟨Output.block noSignalReason, none, none⟩ ∧
      main { inp with now := s } = ⟨Output.block noSignalReason, none, none⟩) := by
  unfold main mainOutcome
  simp only [loadedMetrics_setNow, planSubtasks_setNow, incompleteOf_setNow, completedOf_setNow,
    progressOf_setNow]
  by_cases hdir : inp.autobotDirExists = false
  · simp [hdir]
  · simp only [if_neg hdir]
    cases htask : inp.task with
    | none => simp
    | some t =>
      dsimp only
      by_cases h1 : t.status = some "idle" ∨ jsTruthyOpt t.id = false
      · simp [h1]
      · simp only [if_neg h1]
        by_cases h2 : inp.pausedFlag = true
        · simp [h2]
        · simp only [if_neg h2]
          by_cases h3 : effMaxIterations (loadedMetrics inp) ≤ effCurrentIteration (loadedMetrics inp)
          · simp [h3]
          · simp only [if_neg h3]
            by_cases h4 : 3 ≤ effFailures (loadedMetrics inp)
            · simp [h4]
            · simp only [if_neg h4]
              by_cases h5 : jsIncludes (progressOf inp) exitMarker = true ∧ incompleteOf inp = []
              · simp only [if_pos h5]
                exact Or.inr (Or.inr (Or.inr (Or.inr (Or.inl
                  ⟨trivial, h5.1, h5.2, t, rfl, rfl, rfl⟩))))
              · simp only [if_neg h5]
                cases hinc : incompleteOf inp with
                | nil =>
                  have hmk : jsIncludes (progressOf inp) exitMarker = false := by
                    rcases hj : jsIncludes (progressOf inp) exitMarker
                    · rfl
                    · exact absurd ⟨hj, hinc⟩ h5
                  simp [hmk]
                | cons nt rest =>
                  exact Or.inr (Or.inr (Or.inr (Or.inr (Or.inr (Or.inl
                    ⟨rfl, nt, rest, rfl, rfl, rfl⟩)))))

theorem workPrompt_contains_progress (nt : Subtask) (c tot i m : Nat) :
    jsIncludes (workPrompt nt c tot i m)
      ("PROGRESS: " ++ toString c ++ "/" ++ toString tot) = true := by
  apply jsIncludes_of_eq _ "Continue working on the current task.\n\n"
    ("PROGRESS: " ++ toString c ++ "/" ++ toString tot)
    (" subtasks completed\nITERATION: " ++ toString i ++ "/" ++ toString m ++
      "\n\nCURRENT SUBTASK: " ++ renderTitle nt.title ++ "\nDESCRIPTION: " ++
      jsOrStr nt.description "No description" ++ "\nACCEPTANCE CRITERIA:\n" ++
      renderCriteria nt.acceptance_criteria ++
      "\n\nINSTRUCTIONS:\n1. Review .autobot/progress.md for any learned patterns\n2. Write tests FIRST if this involves new functionality\n3. Implement the change\n4. Tests will auto-run after edits\n5. If tests pass, update .autobot/plan.json to mark subtask complete\n6. If all subtasks done, write \"EXIT_SIGNAL: COMPLETE\" to .autobot/progress.md\n\nQuality over speed. Small, verifiable steps.")
  simp only [workPrompt]
  rw [show ("Continue working on the current task.\n\nPROGRESS: " : String) =
      "Continue working on the current task.\n\n" ++ "PROGRESS: " from rfl]
  simp only [String.append_assoc]

theorem workPrompt_contains_iteration (nt : Subtask) (c tot i m : Nat) :
    jsIncludes (workPrompt nt c tot i m)
      ("ITERATION: " ++ toString i ++ "/" ++ toString m) = true := by
  apply jsIncludes_of_eq _
    ("Continue working on the current task.\n\nPROGRESS: " ++ toString c ++ "/" ++
      toString tot ++ " subtasks completed\n")
    ("ITERATION: " ++ toString i ++ "/" ++ toString m)
    ("\n\nCURRENT SUBTASK: " ++ renderTitle nt.title ++ "\nDESCRIPTION: " ++
      jsOrStr nt.description "No description" ++ "\nACCEPTANCE CRITERIA:\n" ++
      renderCriteria nt.acceptance_criteria ++
      "\n\nINSTRUCTIONS:\n1. Review .autobot/progress.md for any learned patterns\n2. Write tests FIRST if this involves new functionality\n3. Implement the change\n4. Tests will auto-run after edits\n5. If tests pass, update .autobot/plan.json to mark subtask complete\n6. If all subtasks done, write \"EXIT_SIGNAL: COMPLETE\" to .autobot/progress.md\n\nQuality over speed. Small, verifiable steps.")
  simp only [workPrompt]
  rw [show (" subtasks completed\nITERATION: " : String) =
      " subtasks completed\n" ++ "ITERATION: " from rfl]
  simp only [String.append_assoc]

theorem workPrompt_contains_default_bullet (nt : Subtask) (c tot i m : Nat)
    (h : nt.acceptance_criteria = none) :
    jsIncludes (workPrompt nt c tot i m) "- Complete the subtask" = true := by
  apply jsIncludes_of_eq _
    ("Continue working on the current task.\n\nPROGRESS: " ++ toString c ++ "/" ++
      toString tot ++ " subtasks completed\nITERATION: " ++ toString i ++ "/" ++ toString m ++
      "\n\nCURRENT SUBTASK: " ++ renderTitle nt.title ++ "\nDESCRIPTION: " ++
      jsOrStr nt.description "No description" ++ "\nACCEPTANCE CRITERIA:\n")
    "- Complete the subtask"
    "\n\nINSTRUCTIONS:\n1. Review .autobot/progress.md for any learned patterns\n2. Write tests FIRST if this involves new functionality\n3. Implement the change\n4. Tests will auto-run after edits\n5. If tests pass, update .autobot/plan.json to mark subtask complete\n6. If all subtasks done, write \"EXIT_SIGNAL: COMPLETE\" to .autobot/progress.md\n\nQuality over speed. Small, verifiable steps."
  simp only [workPrompt, h]
  rw [show renderCriteria none = "- Complete the subtask" from rfl]
  simp only [String.append_assoc]

theorem completedReason_contains_count (n : Nat) :
    jsIncludes (completedReason n) (toString n) = true := by
  apply jsIncludes_of_eq _ "Task completed successfully! " (toString n) " subtasks finished."
  simp only [completedReason, String.append_assoc]

theorem failureReason_contains_count (n : Nat) :
    jsIncludes (failureReason n) (toString n) = true := by
  apply jsIncludes_of_eq _ "PAUSE: " (toString n)
    " consecutive test failures detected.\n\nPlease review:\n1. .autobot/observations.jsonl for failure patterns\n2. .autobot/progress.md for any related learnings\n3. The test output to understand the root cause\n\nOptions:\n- Fix the issue and tests will auto-run\n- Use /abort to stop and preserve state\n- Use /pause to pause and resume later\n\nWhat would you like to do?"
  simp only [failureReason, String.append_assoc]

theorem safetyReason_contains_limit (n : Nat) :
    jsIncludes (safetyReason n) (toString n) = true := by
  apply jsIncludes_of_eq _ "Safety limit reached: " (toString n)
    " iterations. Review progress and use /resume to continue."
  simp only [safetyReason, String.append_assoc]

/-- C1: with an active task, no pause, iteration below limit, failures
below 3, and at least one non-completed subtask, the hook blocks,
increments the iteration counter by exactly 1, stamps `last_activity`,
picks the first non-completed subtask in stored order, and the prompt
carries completed/total and new-iteration/max progress. -/
theorem c1_work_remaining (inp : HookInput) (t : Task) (nt : Subtask) (rest : List Subtask)
    (hdir : inp.autobotDirExists = true)
    (htask : inp.task = some t)
    (hstatus : ¬ t.status = some "idle")
    (hid : jsTruthyOpt t.id = true)
    (hpause : inp.pausedFlag = false)
    (hiter : effCurrentIteration (loadedMetrics inp) < effMaxIterations (loadedMetrics inp))
    (hfail : effFailures (loadedMetrics inp) < 3)
    (hwork : incompleteOf inp = nt :: rest) :
    mainOutcome inp = 5 ∧
    (planSubtasks inp).find? (fun s => !(s.status = some "completed" : Bool)) = some nt ∧
    (main inp).output = Output.block (workPrompt nt (completedOf inp).length
      (planSubtasks inp).length (effCurrentIteration (loadedMetrics inp) + 1)
      (effMaxIterations (loadedMetrics inp))) ∧
    (main inp).taskWrite = none ∧
    (main inp).metricsWrite = some { loadedMetrics inp with
      current_iteration := some (effCurrentIteration (loadedMetrics inp) + 1)
      last_activity := some inp.now } ∧
    effCurrentIteration (((main inp).metricsWrite).getD defaultMetrics) =
      effCurrentIteration (loadedMetrics inp) + 1 ∧
    jsIncludes (workPrompt nt (completedOf inp).length (planSubtasks inp).length
        (effCurrentIteration (loadedMetrics inp) + 1) (effMaxIterations (loadedMetrics inp)))
      ("PROGRESS: " ++ toString (completedOf inp).length ++ "/" ++
        toString (planSubtasks inp).length) = true ∧
    jsIncludes (workPrompt nt (completedOf inp).length (planSubtasks inp).length
        (effCurrentIteration (loadedMetrics inp) + 1) (effMaxIterations (loadedMetrics inp)))
      ("ITERATION: " ++ toString (effCurrentIteration (loadedMetrics inp) + 1) ++ "/" ++
        toString (effMaxIterations (loadedMetrics inp))) = true := by
  have h5 : mainOutcome inp = 5 := by
    unfold mainOutcome
    rw [if_neg (by simp [hdir]), htask]
    dsimp only
    rw [if_neg (by simp [hstatus, hid]), if_neg (by simp [hpause]),
      if_neg (Nat.not_le.mpr hiter), if_neg (Nat.not_le.mpr hfail),
      if_neg (by simp [hwork]), hwork]
  rcases main_cases inp inp.now with ⟨hk, _⟩ | ⟨hk, _⟩ | ⟨hk, _⟩ | ⟨hk, _⟩ |
      ⟨hk, _⟩ | ⟨_, nt', rest', hinc, hm, _⟩ | ⟨hk, _⟩ <;>
    first
    | (rw [h5] at hk; exact absurd hk (by decide))
    | skip
  rw [hwork] at hinc
  injection hinc with hnt hrest
  subst hnt
  refine ⟨h5, find?_of_filter_cons _ _ _ _ hwork, ?_, ?_, ?_, ?_,
    workPrompt_contains_progress nt _ _ _ _, workPrompt_contains_iteration nt _ _ _ _⟩
  · rw [hm]
  · rw [hm]
  · rw [hm]
  · rw [hm]
    simp [effCurrentIteration, jsOrNat]

theorem c1_witness :
    mainOutcome inpC1 = 5 ∧
    (planSubtasks inpC1).find? (fun s => !(s.status = some "completed" : Bool)) = some subA ∧
    (main inpC1).output = Output.block (workPrompt subA 1 2 3 50) ∧
    (main inpC1).metricsWrite = some
      { current_iteration := some 3, max_iterations := some 50,
        consecutive_test_failures := some 1, last_activity := some "2026-02-03T04:05:06Z" } := by
  obtain ⟨h1, h2, h3, _, h5, _, _, _⟩ :=
    c1_work_remaining inpC1 taskW subA [] rfl rfl (by decide) (by decide) rfl
      (by decide) (by decide) (by decide)
  exact ⟨h1, h2, h3, h5⟩

/-- C2: the hook writes `task.json` only with status `"completed"`, and
only when every subtask is completed and the progress log carries the
exit marker; when those hold (and no earlier outcome fires) it persists
the update and reports the completed-subtask count in the stop reason. -/
theorem c2_completed_only_with_marker (inp : HookInput) :
    (∀ t', (main inp).taskWrite = some t' →
      t'.status = some "completed" ∧ incompleteOf inp = [] ∧
      jsIncludes (progressOf inp) exitMarker = true) ∧
    (∀ t, inp.autobotDirExists = true → inp.task = some t → ¬ t.status = some "idle" →
      jsTruthyOpt t.id = true → inp.pausedFlag = false →
      effCurrentIteration (loadedMetrics inp) < effMaxIterations (loadedMetrics inp) →
      effFailures (loadedMetrics inp) < 3 →
      incompleteOf inp = [] → jsIncludes (progressOf inp) exitMarker = true →
      (main inp).taskWrite = some { t with status := some "completed" } ∧
      (main inp).output = Output.stop (completedReason (completedOf inp).length) ∧
      jsIncludes (completedReason (completedOf inp).length)
        (toString (completedOf inp).length) = true) := by
  constructor
  · intro t' hw
    rcases main_cases inp inp.now with ⟨_, hm, _⟩ | ⟨_, hm, _⟩ | ⟨_, _, hm, _⟩ |
        ⟨_, _, hm, _⟩ | ⟨_, hsig, hinc, t, ht, hm, _⟩ | ⟨_, nt, rest, hinc, hm, _⟩ |
        ⟨_, _, _, hm, _⟩ <;> rw [hm] at hw <;> dsimp only at hw <;>
      first
      | exact Option.noConfusion hw
      | skip
    injection hw with hw'
    subst hw'
    exact ⟨rfl, hinc, hsig⟩
  · intro t hdir htask hstatus hid hpause hiter hfail hinc hsig
    have h7 : mainOutcome inp = 7 := by
      unfold mainOutcome
      rw [if_neg (by simp [hdir]), htask]
      dsimp only
      rw [if_neg (by simp [hstatus, hid]), if_neg (by simp [hpause]),
        if_neg (Nat.not_le.mpr hiter), if_neg (Nat.not_le.mpr hfail),
        if_pos ⟨hsig, hinc⟩]
    rcases main_cases inp inp.now with ⟨hk, _⟩ | ⟨hk, _⟩ | ⟨hk, _⟩ | ⟨hk, _⟩ |
        ⟨_, _, _, t', ht, hm, _⟩ | ⟨hk, _⟩ | ⟨hk, _⟩ <;>
      first
      | (rw [h7] at hk; exact absurd hk (by decide))
      | skip
    rw [htask] at ht
    injection ht with ht'
    subst ht'
    rw [hm]
    exact ⟨rfl, rfl, completedReason_contains_count _⟩

theorem c2_witness :
    (main inpC2).taskWrite = some
      { id := some (JsPrim.str "task-1"), status := some "completed",
        title := some "Demo task" } ∧
    (main inpC2).output = Output.stop (completedReason 1) := by
  obtain ⟨-, h2⟩ := c2_completed_only_with_marker inpC2
  obtain ⟨hw, ho, -⟩ := h2 taskW rfl rfl (by decide) (by decide) rfl (by decide)
    (by decide) (by decide) (by decide)
  exact ⟨hw, ho⟩

/-- C3: with an active task, no pause flag, iteration below the limit,
and `consecutive_test_failures >= 3`, the hook emits a block decision
whose reason carries the failure count, and writes neither document,
regardless of subtask state. -/
theorem c3_failure_threshold (inp : HookInput) (t : Task)
    (hdir : inp.autobotDirExists = true)
    (htask : inp.task = some t)
    (hstatus : ¬ t.status = some "idle")
    (hid : jsTruthyOpt t.id = true)
    (hpause : inp.pausedFlag = false)
    (hiter : effCurrentIteration (loadedMetrics inp) < effMaxIterations (loadedMetrics inp))
    (hfail : 3 ≤ effFailures (loadedMetrics inp)) :
    mainOutcome inp = 4 ∧
    (main inp).output = Output.block (failureReason (effFailures (loadedMetrics inp))) ∧
    jsIncludes (failureReason (effFailures (loadedMetrics inp)))
      (toString (effFailures (loadedMetrics inp))) = true ∧
    (main inp).taskWrite = none ∧
    (main inp).metricsWrite = none := by
  have h4 : mainOutcome inp = 4 := by
    unfold mainOutcome
    rw [if_neg (by simp [hdir]), htask]
    dsimp only
    rw [if_neg (by simp [hstatus, hid]), if_neg (by simp [hpause]),
      if_neg (Nat.not_le.mpr hiter), if_pos hfail]
  rcases main_cases inp inp.now with ⟨hk, _⟩ | ⟨hk, _⟩ | ⟨hk, _⟩ | ⟨_, _, hm, _⟩ |
      ⟨hk, _⟩ | ⟨hk, _⟩ | ⟨hk, _⟩ <;>
    first
    | (rw [h4] at hk; exact absurd hk (by decide))
    | skip
  rw [hm]
  exact ⟨h4, rfl, failureReason_contains_count _, rfl, rfl⟩

theorem c3_witness :
    mainOutcome inpC3 = 4 ∧
    (main inpC3).output = Output.block (failureReason 3) ∧
    (main inpC3).taskWrite = none ∧
    (main inpC3).metricsWrite = none := by
  obtain ⟨h1, h2, _, h4, h5⟩ :=
    c3_failure_threshold inpC3 taskW rfl rfl (by decide) (by decide) rfl (by decide) (by decide)
  exact ⟨h1, h2, h4, h5⟩

/-- C4 counterexample: at iteration 60 of limit 50 the stop reason
names only the limit, not the current iteration count. -/
theorem c4_counterexample :
    effCurrentIteration (loadedMetrics inpC4) = 60 ∧
    effMaxIterations (loadedMetrics inpC4) = 50 ∧
    (main inpC4).output = Output.stop (safetyReason 50) ∧
    jsIncludes (safetyReason 50) (toString 60) = false := by
  refine ⟨rfl, rfl, rfl, by decide⟩

/-- C4 (amended): with an active task, no pause flag, and
`current_iteration >= max_iterations`, the hook allows the halt with a
reason reporting the limit, and writes nothing; the check outranks the
failure-threshold and work-remaining outcomes (no hypotheses on failures
or subtasks are needed).  The original claim that the reason also
reports the iteration count fails, see the counterexample. -/
theorem c4_budget_exhausted (inp : HookInput) (t : Task)
    (hdir : inp.autobotDirExists = true)
    (htask : inp.task = some t)
    (hstatus : ¬ t.status = some "idle")
    (hid : jsTruthyOpt t.id = true)
    (hpause : inp.pausedFlag = false)
    (hiter : effMaxIterations (loadedMetrics inp) ≤ effCurrentIteration (loadedMetrics inp)) :
    mainOutcome inp = 3 ∧
    (main inp).output = Output.stop (safetyReason (effMaxIterations (loadedMetrics inp))) ∧
    jsIncludes (safetyReason (effMaxIterations (loadedMetrics inp)))
      (toString (effMaxIterations (loadedMetrics inp))) = true ∧
    (main inp).taskWrite = none ∧
    (main inp).metricsWrite = none := by
  have h3 : mainOutcome inp = 3 := by
    unfold mainOutcome
    rw [if_neg (by simp [hdir]), htask]
    dsimp only
    rw [if_neg (by simp [hstatus, hid]), if_neg (by simp [hpause]), if_pos hiter]
  rcases main_cases inp inp.now with ⟨hk, _⟩ | ⟨hk, _⟩ | ⟨_, _, hm, _⟩ | ⟨hk, _⟩ |
      ⟨hk, _⟩ | ⟨hk, _⟩ | ⟨hk, _⟩ <;>
    first
    | (rw [h3] at hk; exact absurd hk (by decide))
    | skip
  rw [hm]
  exact ⟨h3, rfl, safetyReason_contains_limit _, rfl, rfl⟩

theorem c4_witness :
    mainOutcome inpC4 = 3 ∧
    (main inpC4).output = Output.stop (safetyReason 50) ∧
    (main inpC4).taskWrite = none ∧
    (main inpC4).metricsWrite = none := by
  obtain ⟨h1, h2, _, h4, h5⟩ :=
    c4_budget_exhausted inpC4 taskW rfl rfl (by decide) (by decide) rfl (by decide)
  exact ⟨h1, h2, h4, h5⟩

/-- C5: at most one persisted document is written per invocation:
outcome 5 writes only the metrics document, outcome 7 writes only the
task document, and every other outcome writes nothing — never both. -/
theorem c5_at_most_one_write (inp : HookInput) :
    ¬(¬(main inp).taskWrite = none ∧ ¬(main inp).metricsWrite = none) ∧
    (mainOutcome inp = 5 → (main inp).taskWrite = none ∧ ¬(main inp).metricsWrite = none) ∧
    (mainOutcome inp = 7 → (main inp).metricsWrite = none ∧ ¬(main inp).taskWrite = none) ∧
    (¬mainOutcome inp = 5 → ¬mainOutcome inp = 7 →
      (main inp).taskWrite = none ∧ (main inp).metricsWrite = none) := by
  rcases main_cases inp inp.now with ⟨hk, hm, _⟩ | ⟨hk, hm, _⟩ | ⟨hk, _, hm, _⟩ |
      ⟨hk, _, hm, _⟩ | ⟨hk, _, _, t, ht, hm, _⟩ | ⟨hk, nt, rest, hinc, hm, _⟩ |
      ⟨hk, _, _, hm, _⟩ <;> rw [hk, hm] <;> simp

theorem c5_witness :
    (main inpC1).taskWrite = none ∧ ¬(main inpC1).metricsWrite = none :=
  (c5_at_most_one_write inpC1).2.1 (by decide)

/-- C6: for outcomes 1, 2, 3, 4 and 6 the evaluation is pure — no
document is written, and re-running on the same unchanged documents (at
any wall-clock time) produces the identical result. -/
theorem c6_pure_outcomes (inp : HookInput)
    (h : mainOutcome inp = 1 ∨ mainOutcome inp = 2 ∨ mainOutcome inp = 3 ∨
      mainOutcome inp = 4 ∨ mainOutcome inp = 6) :
    (main inp).taskWrite = none ∧ (main inp).metricsWrite = none ∧
    ∀ s, main { inp with now := s } = main inp := by
  have key : ∀ s, (main inp).taskWrite = none ∧ (main inp).metricsWrite = none ∧
      main { inp with now := s } = main inp := by
    intro s
    rcases main_cases inp s with ⟨hk, hm, hm2⟩ | ⟨hk, hm, hm2⟩ | ⟨hk, _, hm, hm2⟩ |
        ⟨hk, _, hm, hm2⟩ | ⟨hk, _, _, t, ht, hm, hm2⟩ | ⟨hk, nt, rest, hinc, hm, hm2⟩ |
        ⟨hk, _, _, hm, hm2⟩ <;>
      first
      | (rw [hk] at h; rcases h with h | h | h | h | h <;> exact absurd h (by decide))
      | (rw [hm, hm2]; simp)
  exact ⟨(key inp.now).1, (key inp.now).2.1, fun s => (key s).2.2⟩

theorem c6_witness :
    (main inpC6).taskWrite = none ∧ (main inpC6).metricsWrite = none ∧
    main { inpC6 with now := "2026-02-04T00:00:00Z" } = main inpC6 := by
  obtain ⟨h1, h2, h3⟩ := c6_pure_outcomes inpC6 (by decide)
  exact ⟨h1, h2, h3 _⟩

/-- C7: a malformed JSON document is handled exactly like an absent
one: the hook substitutes the defaults (a malformed task gives the
no-active-task outcome 1 with no payload; malformed metrics give
iteration 0, limit 50, failures 0) and, the load phase being a total
function of the read results, never fails on the read side. -/
theorem c7_malformed_as_absent (r : RawInput) :
    mainRaw { r with task := ReadRes.malformed } = mainRaw { r with task := ReadRes.absent } ∧
    mainRaw { r with plan := ReadRes.malformed } = mainRaw { r with plan := ReadRes.absent } ∧
    mainRaw { r with metrics := ReadRes.malformed } =
      mainRaw { r with metrics := ReadRes.absent } ∧
    mainRaw { r with metrics := ReadRes.malformed } =
      mainRaw { r with metrics := ReadRes.ok defaultMetrics } ∧
    mainOutcome (toHookInput { r with task := ReadRes.malformed }) = 1 ∧
    mainRaw { r with task := ReadRes.malformed } = ⟨Output.noOutput, none, none⟩ ∧
    effCurrentIteration defaultMetrics = 0 ∧
    effMaxIterations defaultMetrics = 50 ∧
    effFailures defaultMetrics = 0 := by
  refine ⟨rfl, rfl, rfl, rfl, ?_, ?_, rfl, rfl, rfl⟩
  · simp [mainOutcome, toHookInput, loadJson]
  · simp [mainRaw, main, toHookInput, loadJson]

set_option maxRecDepth 40000 in
/-- C8 counterexample: with acceptance_criteria present but empty, the
emitted instruction carries no default bullet — the criteria section is
empty. -/
theorem c8_counterexample :
    subEmptyCrit.acceptance_criteria = some [] ∧
    (main inpC8).output = Output.block (workPrompt subEmptyCrit 0 1 3 50) ∧
    renderCriteria (some []) = "" ∧
    jsIncludes (workPrompt subEmptyCrit 0 1 3 50) "- Complete the subtask" = false := by
  refine ⟨rfl, rfl, rfl, by decide⟩

/-- C8 (amended): outcome 5 renders the chosen subtask's acceptance
criteria as a bullet list; the default single bullet
"- Complete the subtask" is substituted only when the field is absent
(JS `||` sees a falsy value) — a list that is present but empty is kept
and renders as the empty string, see the counterexample. -/
theorem c8_criteria_rendering (inp : HookInput) (t : Task) (nt : Subtask) (rest : List Subtask)
    (hdir : inp.autobotDirExists = true)
    (htask : inp.task = some t)
    (hstatus : ¬ t.status = some "idle")
    (hid : jsTruthyOpt t.id = true)
    (hpause : inp.pausedFlag = false)
    (hiter : effCurrentIteration (loadedMetrics inp) < effMaxIterations (loadedMetrics inp))
    (hfail : effFailures (loadedMetrics inp) < 3)
    (hwork : incompleteOf inp = nt :: rest) :
    (main inp).output = Output.block (workPrompt nt (completedOf inp).length
      (planSubtasks inp).length (effCurrentIteration (loadedMetrics inp) + 1)
      (effMaxIterations (loadedMetrics inp))) ∧
    renderCriteria none = "- Complete the subtask" ∧
    renderCriteria (some []) = "" ∧
    (∀ l, renderCriteria (some l) =
      String.intercalate "\n" (l.map (fun c => "- " ++ c))) ∧
    (nt.acceptance_criteria = none →
      jsIncludes (workPrompt nt (completedOf inp).length (planSubtasks inp).length
        (effCurrentIteration (loadedMetrics inp) + 1)
        (effMaxIterations (loadedMetrics inp))) "- Complete the subtask" = true) := by
  have h5 : mainOutcome inp = 5 := by
    unfold mainOutcome
    rw [if_neg (by simp [hdir]), htask]
    dsimp only
    rw [if_neg (by simp [hstatus, hid]), if_neg (by simp [hpause]),
      if_neg (Nat.not_le.mpr hiter), if_neg (Nat.not_le.mpr hfail),
      if_neg (by simp [hwork]), hwork]
  rcases main_cases inp inp.now with ⟨hk, _⟩ | ⟨hk, _⟩ | ⟨hk, _⟩ | ⟨hk, _⟩ |
      ⟨hk, _⟩ | ⟨_, nt', rest', hinc, hm, _⟩ | ⟨hk, _⟩ <;>
    first
    | (rw [h5] at hk; exact absurd hk (by decide))
    | skip
  rw [hwork] at hinc
  injection hinc with hnt hrest
  subst hnt
  refine ⟨by rw [hm], rfl, rfl, fun l => rfl, fun hcrit =>
    workPrompt_contains_default_bullet nt _ _ _ _ hcrit⟩

set_option maxRecDepth 40000 in
theorem c8_witness :
    (main inpC8w).output = Output.block (workPrompt subNoCrit 0 1 3 50) ∧
    jsIncludes (workPrompt subNoCrit 0 1 3 50) "- Complete the subtask" = true := by
  obtain ⟨h1, _, _, _, h5⟩ :=
    c8_criteria_rendering inpC8w taskW subNoCrit [] rfl rfl (by decide) (by decide) rfl
      (by decide) (by decide) (by decide)
  exact ⟨h1, h5 rfl⟩

/-- C9: with an active task, no pause, iteration below the limit,
failures below 3, and a plan that is absent, malformed, or has an empty
subtasks list, the work-remaining outcome is impossible: with the exit
marker present the task is marked completed reporting 0 subtasks
finished, and otherwise the hook blocks asking for the marker to be
appended. -/
theorem c9_empty_plan (inp : HookInput) (t : Task)
    (hdir : inp.autobotDirExists = true)
    (htask : inp.task = some t)
    (hstatus : ¬ t.status = some "idle")
    (hid : jsTruthyOpt t.id = true)
    (hpause : inp.pausedFlag = false)
    (hiter : effCurrentIteration (loadedMetrics inp) < effMaxIterations (loadedMetrics inp))
    (hfail : effFailures (loadedMetrics inp) < 3)
    (hplan : inp.plan = none ∨ ∃ p, inp.plan = some p ∧
      (p.subtasks = none ∨ p.subtasks = some [])) :
    ¬ mainOutcome inp = 5 ∧
    (jsIncludes (progressOf inp) exitMarker = true →
      mainOutcome inp = 7 ∧
      (main inp).output = Output.stop (completedReason 0) ∧
      (main inp).taskWrite = some { t with status := some "completed" }) ∧
    (jsIncludes (progressOf inp) exitMarker = false →
      mainOutcome inp = 6 ∧
      (main inp).output = Output.block noSignalReason ∧
      (main inp).taskWrite = none ∧ (main inp).metricsWrite = none) := by
  have hsubs : planSubtasks inp = [] := by
    rcases hplan with h | ⟨p, hp, hs⟩
    · simp [planSubtasks, h]
    · rcases hs with hs | hs <;> simp [planSubtasks, hp, hs]
  have hinc : incompleteOf inp = [] := by simp [incompleteOf, hsubs]
  have hcomp : (completedOf inp).length = 0 := by simp [completedOf, hsubs]
  have h7 : jsIncludes (progressOf inp) exitMarker = true → mainOutcome inp = 7 := by
    intro hsig
    unfold mainOutcome
    rw [if_neg (by simp [hdir]), htask]
    dsimp only
    rw [if_neg (by simp [hstatus, hid]), if_neg (by simp [hpause]),
      if_neg (Nat.not_le.mpr hiter), if_neg (Nat.not_le.mpr hfail), if_pos ⟨hsig, hinc⟩]
  have h6 : jsIncludes (progressOf inp) exitMarker = false → mainOutcome inp = 6 := by
    intro hsig
    unfold mainOutcome
    rw [if_neg (by simp [hdir]), htask]
    dsimp only
    rw [if_neg (by simp [hstatus, hid]), if_neg (by simp [hpause]),
      if_neg (Nat.not_le.mpr hiter), if_neg (Nat.not_le.mpr hfail),
      if_neg (by simp [hsig]), hinc]
  refine ⟨?_, ?_, ?_⟩
  · intro h5
    rcases hj : jsIncludes (progressOf inp) exitMarker
    · rw [h6 hj] at h5
      exact absurd h5 (by decide)
    · rw [h7 hj] at h5
      exact absurd h5 (by decide)
  · intro hsig
    have hk7 := h7 hsig
    rcases main_cases inp inp.now with ⟨hk, _⟩ | ⟨hk, _⟩ | ⟨hk, _⟩ | ⟨hk, _⟩ |
        ⟨_, _, _, t', ht, hm, _⟩ | ⟨hk, _⟩ | ⟨hk, _⟩ <;>
      first
      | (rw [hk7] at hk; exact absurd hk (by decide))
      | skip
    rw [htask] at ht
    injection ht with ht'
    subst ht'
    exact ⟨hk7, by rw [hm, hcomp], by rw [hm]⟩
  · intro hsig
    have hk6 := h6 hsig
    rcases main_cases inp inp.now with ⟨hk, _⟩ | ⟨hk, _⟩ | ⟨hk, _⟩ | ⟨hk, _⟩ |
        ⟨hk, _⟩ | ⟨hk, _⟩ | ⟨_, _, _, hm, _⟩ <;>
      first
      | (rw [hk6] at hk; exact absurd hk (by decide))
      | skip
    exact ⟨hk6, by rw [hm], by rw [hm], by rw [hm]⟩

theorem c9_witness :
    (main inpC9).output = Output.stop (completedReason 0) ∧
    (main inpC9).taskWrite = some
      { id := some (JsPrim.str "task-1"), status := some "completed",
        title := some "Demo task" } := by
  obtain ⟨-, h7, -⟩ := c9_empty_plan inpC9 taskW rfl rfl (by decide) (by decide) rfl
    (by decide) (by decide) (Or.inl rfl)
  obtain ⟨-, ho, hw⟩ := h7 (by decide)
  exact ⟨ho, hw⟩

/-- C10: a task whose id field is present but falsy (empty string, 0,
false or null) is treated exactly like an absent task: allow halt with
no output payload and no side effects. -/
theorem c10_falsy_id (inp : HookInput) (t : Task) (v : JsPrim)
    (htask : inp.task = some t) (hid : t.id = some v) (hfalsy : v.truthy = false) :
    main inp = ⟨Output.noOutput, none, none⟩ ∧ mainOutcome inp = 1 := by
  have hidf : jsTruthyOpt t.id = false := by rw [hid]; exact hfalsy
  constructor
  · unfold main
    by_cases hd : inp.autobotDirExists = false
    · rw [if_pos hd]
    · rw [if_neg hd, htask]
      dsimp only
      rw [if_pos (Or.inr hidf)]
  · unfold mainOutcome
    by_cases hd : inp.autobotDirExists = false
    · rw [if_pos hd]
    · rw [if_neg hd, htask]
      dsimp only
      rw [if_pos (Or.inr hidf)]

theorem c10_witness :
    main inpC10 = ⟨Output.noOutput, none, none⟩ ∧ mainOutcome inpC10 = 1 :=
  c10_falsy_id inpC10 taskFalsyId (JsPrim.str "") rfl rfl rfl

end Autobot
